import Mathlib

/-!
Verification of the rusty-celery.github.io documentation-test harness.

The repository registers markdown documentation pages for doctest execution
through repeated `doctest!("<path>")` invocations in a small Rust library
file.  We embed each harness file as a sequence of registration steps acting
on an explicit harness state, and prove the spec's claims about the
registered path lists.
-/

namespace RustyCeleryDocs

/-- The observable state of the documentation-test harness.  `registered`
holds the paths registered so far (in registration order), `ioTrace` records
any I/O the harness itself would perform, and `other` is an arbitrary
remaining state component, used to express frame conditions. -/
structure HarnessState (σ : Type) where
  registered : List String
  ioTrace : List String
  other : σ
deriving Repr

/-- The semantics of a single `doctest!(p)` invocation: it appends `p` to the
list of registered documentation paths and does nothing else (the macro only
wires the named file into the external doctest facility). -/
def doctestStep {σ : Type} (p : String) (s : HarnessState σ) : HarnessState σ :=
  { s with registered := s.registered ++ [p] }

/-- The harness file `src/lib.rs` present under src/: its eight `doctest!`
invocations (lines 4 to 11), executed in source order. -/
def librs_run {σ : Type} (s : HarnessState σ) : HarnessState σ :=
  doctestStep "./additional-resources.md"
    (doctestStep "./coming-from-python/index.md"
      (doctestStep "./best-practices/index.md"
        (doctestStep "./guide/defining-tasks.md"
          (doctestStep "./guide/index.md"
            (doctestStep "./quick-start.md"
              (doctestStep "./what-is-celery.md"
                (doctestStep "./SUMMARY.md" s)))))))

/-- The harness state before any registration has happened. -/
def initState : HarnessState Unit :=
  { registered := [], ioTrace := [], other := () }

/-- The list of documentation paths registered by `src/lib.rs`. -/
def librs_paths : List String :=
  (librs_run initState).registered

/-- A generic harness file that registers the given paths in order: every
harness file of the repository is this mechanism applied to its path list. -/
def harnessFile {σ : Type} (paths : List String) (s : HarnessState σ) : HarnessState σ :=
  paths.foldl (fun t p => doctestStep p t) s

/-- Modelled from the spec: the first harness file variant.  The repository
contains two harness source files but only the second one is under src/;
per the spec, the second variant adds `./quick-start.md`, `./guide/index.md`
and `./guide/defining-tasks.md` and drops `./getting-started/index.md`
relative to the first, so the first registers the six remaining paths. -/
def firstFile_run {σ : Type} (s : HarnessState σ) : HarnessState σ :=
  doctestStep "./additional-resources.md"
    (doctestStep "./coming-from-python/index.md"
      (doctestStep "./best-practices/index.md"
        (doctestStep "./getting-started/index.md"
          (doctestStep "./what-is-celery.md"
            (doctestStep "./SUMMARY.md" s)))))

/-- The list of documentation paths registered by the first harness file
variant. -/
def firstFile_paths : List String :=
  (firstFile_run initState).registered

/-- The registration lists of the repository's two harness source files, in
order: the spec-modelled first variant, then `src/lib.rs`. -/
def harnessFiles : List (List String) :=
  [firstFile_paths, librs_paths]

/-- Modelled from the spec: the documentation pages present in the
repository.  The markdown files are repository content that is not under
src/; the spec enumerates the referenced documentation file paths and states
that each referenced file exists. -/
def repoDocFiles : List String :=
  ["./SUMMARY.md", "./what-is-celery.md", "./getting-started/index.md",
   "./quick-start.md", "./guide/index.md", "./guide/defining-tasks.md",
   "./best-practices/index.md", "./coming-from-python/index.md",
   "./additional-resources.md"]

/-- Fallible view of the registration logic: the source contains no error
branch, so each step is the pure `doctestStep` lifted into `Except`. -/
def registerAll {σ : Type} (ps : List String) (s : HarnessState σ) :
    Except String (HarnessState σ) :=
  match ps with
  | [] => Except.ok s
  | p :: tl => registerAll tl (doctestStep p s)

/-- Running `src/lib.rs` appends exactly its path list to whatever was
registered before. -/
theorem librs_run_registered {σ : Type} (s : HarnessState σ) :
    (librs_run s).registered = s.registered ++ librs_paths := by
  simp [librs_run, doctestStep, librs_paths, initState]

/-- Claim C1, counterexample: the sequence of paths registered by the
`doctest!` invocations of `src/lib.rs` is not the nine-element sequence the
claim states; `./getting-started/index.md` is not among the arguments. -/
theorem librs_paths_ne_claimed_nine :
    librs_paths ≠
      ["./SUMMARY.md", "./what-is-celery.md", "./getting-started/index.md",
       "./quick-start.md", "./guide/index.md", "./guide/defining-tasks.md",
       "./best-practices/index.md", "./coming-from-python/index.md",
       "./additional-resources.md"] := by
  decide

/-- Claim C1, amended: the sequence of string arguments passed to `doctest!`
in `src/lib.rs` is exactly, and in this order: ./SUMMARY.md,
./what-is-celery.md, ./quick-start.md, ./guide/index.md,
./guide/defining-tasks.md, ./best-practices/index.md,
./coming-from-python/index.md, ./additional-resources.md. -/
theorem librs_paths_exact :
    librs_paths =
      ["./SUMMARY.md", "./what-is-celery.md", "./quick-start.md",
       "./guide/index.md", "./guide/defining-tasks.md",
       "./best-practices/index.md", "./coming-from-python/index.md",
       "./additional-resources.md"] := by
  rfl

/-- Claim C2: the repository has exactly two harness source files, and as
sets of filenames the second file's list equals the first file's list with
./quick-start.md, ./guide/index.md and ./guide/defining-tasks.md added and
./getting-started/index.md removed. -/
theorem harness_variants_relation :
    harnessFiles.length = 2 ∧
    librs_paths.toFinset =
      (firstFile_paths.toFinset \ {"./getting-started/index.md"}) ∪
        ({"./quick-start.md", "./guide/index.md", "./guide/defining-tasks.md"} :
          Finset String) := by
  exact ⟨rfl, by decide⟩

/-- Claim C3: the two harness files use the same registration mechanism and
differ only in the path list they yield: each file's embedded semantics is
the generic `harnessFile` mechanism applied to that file's path list. -/
theorem harness_variants_same_mechanism :
    ∀ (σ : Type) (s : HarnessState σ),
      librs_run s = harnessFile librs_paths s ∧
      firstFile_run s = harnessFile firstFile_paths s := by
  intro σ s
  exact ⟨rfl, rfl⟩

/-- Claim C4: every path registered by `src/lib.rs` is among the
documentation files present in the repository, so each referenced file
exists. -/
theorem registered_paths_exist :
    ∀ p ∈ librs_paths, p ∈ repoDocFiles := by
  decide

/-- Witness for `registered_paths_exist` at the concrete path
./SUMMARY.md. -/
theorem registered_paths_exist_witness :
    ("./SUMMARY.md" : String) ∈ librs_paths ∧
      ("./SUMMARY.md" : String) ∈ repoDocFiles :=
  ⟨by decide, registered_paths_exist "./SUMMARY.md" (by decide)⟩

/-- Claim C5: every path string registered by `src/lib.rs` begins with the
relative prefix "./". -/
theorem registered_paths_relative :
    ∀ p ∈ librs_paths, List.isPrefixOf (String.toList "./") p.data = true := by
  decide

/-- Witness for `registered_paths_relative` at the concrete path
./quick-start.md. -/
theorem registered_paths_relative_witness :
    ("./quick-start.md" : String) ∈ librs_paths ∧
      List.isPrefixOf (String.toList "./") (String.data "./quick-start.md") = true :=
  ⟨by decide, registered_paths_relative "./quick-start.md" (by decide)⟩

/-- Claim C6: registering the paths of `src/lib.rs` appends the path list to
the registered component and changes nothing else: the I/O trace and every
other state component are untouched. -/
theorem registration_pure_frame :
    ∀ (σ : Type) (s : HarnessState σ),
      (librs_run s).ioTrace = s.ioTrace ∧
      (librs_run s).other = s.other ∧
      (librs_run s).registered = s.registered ++ librs_paths := by
  intro σ s
  exact ⟨rfl, rfl, librs_run_registered s⟩

/-- Claim C7: the registration logic is total and never fails: for any path
list and any starting state, the fallible view `registerAll` returns
success, namely the state the pure mechanism produces. -/
theorem registration_never_fails :
    ∀ (σ : Type) (ps : List String) (s : HarnessState σ),
      registerAll ps s = Except.ok (harnessFile ps s) := by
  intro σ ps
  induction ps with
  | nil => intro s; rfl
  | cons p tl ih => intro s; exact ih (doctestStep p s)

/-- Claim C8: the registered path list is deterministic: the contribution of
running `src/lib.rs` is the same compile-time constant `librs_paths` from
any two starting states, whatever their registered lists, I/O traces or
other components. -/
theorem registration_deterministic :
    ∀ (σ₁ σ₂ : Type) (s₁ : HarnessState σ₁) (s₂ : HarnessState σ₂),
      ((librs_run s₁).registered).drop s₁.registered.length =
        ((librs_run s₂).registered).drop s₂.registered.length ∧
      ((librs_run s₁).registered).drop s₁.registered.length = librs_paths := by
  intro σ₁ σ₂ s₁ s₂
  rw [librs_run_registered, librs_run_registered, List.drop_left,
    List.drop_left]
  exact ⟨rfl, rfl⟩

/-- Claim C9: the paths registered by `src/lib.rs` are pairwise distinct: no
documentation file is registered twice. -/
theorem registered_paths_nodup : librs_paths.Nodup := by
  decide

/-- Claim C10: every path string registered by `src/lib.rs` ends with the
markdown extension ".md". -/
theorem registered_paths_markdown :
    ∀ p ∈ librs_paths, List.isSuffixOf (String.toList ".md") p.data = true := by
  decide

/-- Witness for `registered_paths_markdown` at the concrete path
./guide/index.md. -/
theorem registered_paths_markdown_witness :
    ("./guide/index.md" : String) ∈ librs_paths ∧
      List.isSuffixOf (String.toList ".md") (String.data "./guide/index.md") = true :=
  ⟨by decide, registered_paths_markdown "./guide/index.md" (by decide)⟩

end RustyCeleryDocs
